import Mathlib

/-!
Verification of the faas-rust-runtime CloudEvent transport and signature
mapper against its specification.

The development shallowly embeds the two source files:

* `src/faas_rust/src/response_writer.rs` — the response assembler and the
  binary/structured encoders (`write_cloud_event`, `write_binary`,
  `write_structured`). JSON serialization is performed by the external
  `serde_json` crate, so it is taken as an opaque parameter
  `serialize : Event → Except String (List Nat)`.
* `src/faas_rust_macro/src/lib.rs` — the build-time signature mapper
  (`is_event`, `is_option_event`, `is_vec_event`, the `extract_*` helpers,
  `map_output`) over a model of `syn` type syntax, and the runtime
  semantics of the code the macro generates (`events.reverse()` followed
  by one `pop` per parameter, output normalization, response writing).
-/

namespace FaasRust

/-! ## Event model (the `cloudevent` crate's `Event`, as used by the sources) -/

/-- An event payload: content type plus opaque body bytes. -/
structure Payload where
  content_type : String
  data : List Nat
deriving DecidableEq, Repr

/-- A timestamp; the sources only ever render it with `to_rfc3339`. -/
structure EventTime where
  rfc3339 : String
deriving DecidableEq, Repr

/-- Rendering via `chrono`'s `DateTime::to_rfc3339`, kept abstract. -/
def EventTime.to_rfc3339 (t : EventTime) : String := t.rfc3339

/-- The CloudEvent value consumed by the response writer.
`spec_version` is modelled by its `Display` rendering. -/
structure Event where
  id : String
  spec_version : String
  source : String
  event_type : String
  subject : Option String
  time : Option EventTime
  payload : Option Payload
deriving DecidableEq, Repr

/-- The two wire encodings. -/
inductive Encoding where
  | BINARY
  | STRUCTURED
deriving DecidableEq, Repr

/-- The reserved CloudEvents header names (`cloudevent::http` constants). -/
def CE_ID_HEADER : String := "ce-id"

def CE_SPECVERSION_HEADER : String := "ce-specversion"

def CE_SOURCE_HEADER : String := "ce-source"

def CE_TYPE_HEADER : String := "ce-type"

def CE_SUBJECT_HEADER : String := "ce-subject"

def CE_TIME_HEADER : String := "ce-time"

/-! ## HTTP response model (the slice of `actix_web::HttpResponse` the
sources construct: a status, headers added in call order, an optional
content type, and a body) -/

structure HttpResponse where
  status : Nat
  headers : List (String × String)
  contentType : Option String
  body : List Nat
deriving DecidableEq, Repr

/-- Model of `actix_web::Error`: the status class its helpers attach
plus the message. -/
structure ActixError where
  status : Nat
  message : String
deriving DecidableEq, Repr

/-- Models `actix_web::error::ErrorBadRequest`. -/
def ErrorBadRequest (msg : String) : ActixError := ⟨400, msg⟩

/-- Models `actix_web::error::ErrorInternalServerError`. -/
def ErrorInternalServerError (msg : String) : ActixError := ⟨500, msg⟩

/-! ## response_writer.rs -/

/-- Source: `const DEFAULT_ENCODING: Encoding = Encoding::BINARY;` -/
def DEFAULT_ENCODING : Encoding := Encoding.BINARY

/-- Embeds `write_binary` from `response_writer.rs`: status 200; one header per
present attribute in source order (id, specversion, source, type, then
subject and time when present); payload, when present, supplies the
content type and the body, otherwise `finish()` leaves the body empty. -/
def write_binary (event : Event) : Except ActixError HttpResponse :=
  let headers :=
    [(CE_ID_HEADER, event.id),
     (CE_SPECVERSION_HEADER, event.spec_version),
     (CE_SOURCE_HEADER, event.source),
     (CE_TYPE_HEADER, event.event_type)]
    ++ (match event.subject with
        | some sub => [(CE_SUBJECT_HEADER, sub)]
        | none => [])
    ++ (match event.time with
        | some t => [(CE_TIME_HEADER, t.to_rfc3339)]
        | none => [])
  Except.ok (match event.payload with
    | some p => { status := 200, headers := headers, contentType := some p.content_type, body := p.data }
    | none => { status := 200, headers := headers, contentType := none, body := [] })

/-- Embeds `write_structured` from `response_writer.rs`:
`serde_json::to_vec(&event).map(|j| ...).map_err(ErrorInternalServerError)`,
with the serde serializer passed in as `serialize`. -/
def write_structured (serialize : Event → Except String (List Nat)) (event : Event) :
    Except ActixError HttpResponse :=
  Except.mapError (fun e => ErrorInternalServerError e)
    ((serialize event).map (fun j =>
      { status := 200, headers := [], contentType := some "application/cloudevents+json", body := j }))

/-- Embeds `write_cloud_event` from `response_writer.rs`. The `unimplemented!()`
panic taken on batches of two or more events is modelled by `none`; a
returned value (`Ok` or `Err`) is `some`. -/
def write_cloud_event (serialize : Event → Except String (List Nat))
    (ce : List Event) (e : Option Encoding) :
    Option (Except ActixError HttpResponse) :=
  match ce with
  | [ev] =>
      let encoding := e.getD DEFAULT_ENCODING
      some (match encoding with
        | Encoding.STRUCTURED => write_structured serialize ev
        | _ => write_binary ev)
  | [] => some (Except.ok { status := 202, headers := [], contentType := none, body := [] })
  | _ => none

/-! ## Concrete sample values used by witnesses -/

def ev0 : Event :=
  { id := "1", spec_version := "1.0", source := "/test", event_type := "demo",
    subject := none, time := none, payload := none }

def ev1 : Event :=
  { id := "2", spec_version := "1.0", source := "/test", event_type := "demo",
    subject := some "sub", time := some ⟨"2020-01-01T00:00:00+00:00"⟩,
    payload := some ⟨"text/plain", [104, 105]⟩ }

def serOk : Event → Except String (List Nat) := fun _ => Except.ok [123, 125]

def serFail : Event → Except String (List Nat) := fun _ => Except.error "boom"

/-! ## Model of the `syn` type syntax inspected by faas_rust_macro

Only the shape the macro looks at is modelled: a type is either a path
(with a possible qualified-self, a possible leading `::`, and a list of
segments, each an identifier with path arguments) or something else. -/

mutual

inductive RType where
  | path (qself : Bool) (p : RPath) : RType
  | other : RType

inductive RPath where
  | mk (leadingColon : Bool) (segments : List RSegment) : RPath

inductive RSegment where
  | mk (ident : String) (args : RPathArguments) : RSegment

inductive RPathArguments where
  | noArgs : RPathArguments
  | angleBracketed (args : List RGenericArg) : RPathArguments
  | parenthesized : RPathArguments

inductive RGenericArg where
  | type (ty : RType) : RGenericArg
  | otherArg : RGenericArg

end

def RPath.leadingColon : RPath → Bool
  | RPath.mk b _ => b

def RPath.segments : RPath → List RSegment
  | RPath.mk _ s => s

def RSegment.ident : RSegment → String
  | RSegment.mk i _ => i

def RSegment.args : RSegment → RPathArguments
  | RSegment.mk _ a => a

/-- A function argument: a receiver (`self`, rejected by
`extract_type_from_fn_arg`) or a typed pattern. -/
inductive RFnArg where
  | receiver : RFnArg
  | typed (ty : RType) : RFnArg

/-! ## faas_rust_macro/src/lib.rs: the build-time type inspection -/

/-- The `path_is_vec` / `path_is_option` / `path_is_result` local
predicates in `lib.rs`, which are identical up to the identifier: a path
with no leading colons, exactly one segment, named `name`. -/
def path_is_single (name : String) (p : RPath) : Bool :=
  !p.leadingColon && p.segments.length == 1 &&
    (match p.segments.head? with
     | some s => s.ident == name
     | none => false)

/-- Embeds `extract_type_from_vec`: the sole angle-bracketed type argument of a
bare single-segment `Vec` path. The source `unwrap`s the first generic
argument (absent only for syntax `syn` cannot produce); that is modelled
as `none`. -/
def extract_type_from_vec (ty : RType) : Option RType :=
  match ty with
  | RType.path qself p =>
      if !qself && path_is_single "Vec" p then
        match p.segments.head? with
        | some s =>
            match s.args with
            | RPathArguments.angleBracketed gargs =>
                match gargs.head? with
                | some (RGenericArg.type t) => some t
                | _ => none
            | _ => none
        | none => none
      else none
  | _ => none

/-- Embeds `extract_type_from_option`: same shape as `extract_type_from_vec`,
over a bare single-segment `Option` path. -/
def extract_type_from_option (ty : RType) : Option RType :=
  match ty with
  | RType.path qself p =>
      if !qself && path_is_single "Option" p then
        match p.segments.head? with
        | some s =>
            match s.args with
            | RPathArguments.angleBracketed gargs =>
                match gargs.head? with
                | some (RGenericArg.type t) => some t
                | _ => none
            | _ => none
        | none => none
      else none
  | _ => none

/-- Embeds `extract_types_from_result`: the first two type-valued generic
arguments of a bare single-segment `Result` path (non-type arguments are
filtered out by the source's closure). -/
def extract_types_from_result (ty : RType) : Option (RType × RType) :=
  match ty with
  | RType.path qself p =>
      if !qself && path_is_single "Result" p then
        match p.segments.head? with
        | some s =>
            match s.args with
            | RPathArguments.angleBracketed gargs =>
                let tys := gargs.filterMap (fun ga =>
                  match ga with
                  | RGenericArg.type t => some t
                  | _ => none)
                match tys.get? 0, tys.get? 1 with
                | some l, some r => some (l, r)
                | _, _ => none
            | _ => none
        | none => none
      else none
  | _ => none

/-- Embeds `is_event`: the type is a path whose last segment's identifier is
`Event`, whatever the path's earlier segments. (`syn` paths are never
empty; the source `unwrap`s the last segment.) -/
def is_event (ty : RType) : Bool :=
  match ty with
  | RType.path _ p =>
      match p.segments.getLast? with
      | some seg => seg.ident == "Event"
      | none => false
  | _ => false

/-- Embeds `is_option_event`: `extract_type_from_option` succeeds and the inner
type is a path whose last segment is `Event`. -/
def is_option_event (ty : RType) : Bool :=
  match extract_type_from_option ty with
  | some (RType.path _ p) =>
      match p.segments.getLast? with
      | some seg => seg.ident == "Event"
      | none => false
  | _ => false

/-- Embeds `is_vec_event`: `extract_type_from_vec` succeeds and the inner type is
a path whose last segment is `Event`. -/
def is_vec_event (ty : RType) : Bool :=
  match extract_type_from_vec ty with
  | some (RType.path _ p) =>
      match p.segments.getLast? with
      | some seg => seg.ident == "Event"
      | none => false
  | _ => false

/-- Embeds `extract_type_from_fn_arg`: typed arguments yield their type;
receivers yield `None` (and hence a build error downstream). -/
def extract_type_from_fn_arg : RFnArg → Option RType
  | RFnArg.typed ty => some ty
  | RFnArg.receiver => none

/-- Per-parameter binding mode, as decided at build time. -/
inductive ParamSpec where
  | required
  | optional
deriving DecidableEq, Repr

/-- The per-argument decision of `generate_handler`'s `input_extracted`
mapping: `Event` parameters get the popping-with-error statement,
`Option<Event>` parameters the plain pop; anything else (`none`) becomes
a compile error. -/
def parameter_spec (arg : RFnArg) : Option ParamSpec :=
  (extract_type_from_fn_arg arg).bind (fun ty =>
    if is_event ty then some ParamSpec.required
    else if is_option_event ty then some ParamSpec.optional
    else none)

/-- The normalization code emitted by `map_output` for the success arm of
the declared `Result`. -/
inductive OutputMapper where
  | passthrough
  | fromIterOption
  | wrapSingle
deriving DecidableEq, Repr

/-- Embeds `map_output`: `None` models both `ReturnType::Default` (passed in as
`none`) and the emitted compile error. The `Vec` / `Option` / `Event`
checks are tried in the source's order. -/
def map_output (rt : Option RType) : Option OutputMapper :=
  match rt with
  | some ty =>
      match extract_types_from_result ty with
      | some (left, _) =>
          if is_vec_event left then some OutputMapper.passthrough
          else if is_option_event left then some OutputMapper.fromIterOption
          else if is_event left then some OutputMapper.wrapSingle
          else none
      | none => none
  | none => none

/-! ## Runtime semantics of the generated handler

`generate_handler` emits `handle_event`, which reverses the decoded batch
and then runs one `events.pop()` per declared parameter, in declaration
order, before invoking the user function and normalizing its output. -/

/-- Models `Vec::pop`: remove and return the last element (or `none` on an empty
vector, leaving it empty). -/
def vecPop {α : Type} : List α → Option α × List α
  | [] => (none, [])
  | [a] => (some a, [])
  | a :: b :: rest =>
      let p := vecPop (b :: rest)
      (p.1, a :: p.2)

theorem vecPop_eq {α : Type} (l : List α) : vecPop l = (l.getLast?, l.dropLast) := by
  induction l with
  | nil => rfl
  | cons a rest ih =>
      cases rest with
      | nil => rfl
      | cons b t =>
          simp [vecPop, ih, List.getLast?_cons_cons, List.dropLast_cons_of_ne_nil]

/-- The sequence of binding statements the macro emits: one pop per
parameter, positions counted from `pos` (the generated code starts at 1).
A `required` parameter whose pop comes back empty raises the
`ErrorBadRequest` the macro's `quote_spanned` block writes; an `optional`
parameter binds whatever the pop returned. Returns the bound arguments in
declaration order plus the leftover vector. -/
def bindParams : List ParamSpec → Nat → List Event →
    Except ActixError (List (Option Event) × List Event)
  | [], _, events => Except.ok ([], events)
  | ParamSpec.required :: rest, pos, events =>
      match vecPop events with
      | (none, _) =>
          Except.error (ErrorBadRequest ("Expecting event in position " ++ toString pos))
      | (some e, events') =>
          (bindParams rest (pos + 1) events').map (fun pr => (some e :: pr.1, pr.2))
  | ParamSpec.optional :: rest, pos, events =>
      let p := vecPop events
      (bindParams rest (pos + 1) p.2).map (fun pr => (p.1 :: pr.1, pr.2))

/-- Runtime meaning of the `vec![output]` mapper (declared return
`Result<Event, E>`). -/
def normalize_single (e : Event) : List Event := [e]

/-- Models `Option::into_iter`: an iterator of the contained element, if any. -/
def option_into_iter (o : Option Event) : List Event :=
  match o with
  | some e => [e]
  | none => []

/-- Runtime meaning of the `Vec::from_iter(output.into_iter())` mapper
(declared return `Result<Option<Event>, E>`). -/
def normalize_optional (o : Option Event) : List Event :=
  option_into_iter o

/-- Runtime meaning of the identity `output` mapper (declared return
`Result<Vec<Event>, E>`). -/
def normalize_sequence (l : List Event) : List Event := l

/-- The body of the generated `handle_event`, after `read_cloud_event`
has produced `decoded` (its `None` means no inbound event and no
encoding). The user function and its output normalizer are parameters:
the macro fixes them at build time. -/
def handle_event {α : Type} (specs : List ParamSpec)
    (userFn : List (Option Event) → Except ActixError α)
    (normalize : α → List Event)
    (serialize : Event → Except String (List Nat))
    (decoded : Option (Encoding × List Event)) :
    Option (Except ActixError HttpResponse) :=
  let pair : Option Encoding × List Event :=
    match decoded with
    | some (enc, evs) => (some enc, evs)
    | none => (none, [])
  let events := pair.2.reverse
  match bindParams specs 1 events with
  | Except.error err => some (Except.error err)
  | Except.ok (args, _) =>
      match userFn args with
      | Except.error err => some (Except.error err)
      | Except.ok output => write_cloud_event serialize (normalize output) pair.1

/-! ## Builders for concrete syntax values -/

/-- A bare single-segment path type with no generic arguments. -/
def simpleTy (name : String) : RType :=
  RType.path false (RPath.mk false [RSegment.mk name RPathArguments.noArgs])

/-- A bare single-segment generic path type, e.g. `Vec<Event>`,
`Result<V, E>`. -/
def genTy (name : String) (params : List RType) : RType :=
  RType.path false (RPath.mk false
    [RSegment.mk name (RPathArguments.angleBracketed (params.map RGenericArg.type))])

/-- The type `std::option::Option<Event>`: three segments, the generic
argument on the last. -/
def stdOptionEventTy : RType :=
  RType.path false (RPath.mk false
    [RSegment.mk "std" RPathArguments.noArgs,
     RSegment.mk "option" RPathArguments.noArgs,
     RSegment.mk "Option" (RPathArguments.angleBracketed
       [RGenericArg.type (simpleTy "Event")])])

/-! ## Helper lemmas about the encoders -/

theorem write_binary_never_fails (ev : Event) : ∃ r, write_binary ev = Except.ok r :=
  ⟨_, rfl⟩

theorem write_binary_status (ev : Event) (r : HttpResponse)
    (h : write_binary ev = Except.ok r) : r.status = 200 := by
  obtain ⟨_, _, _, _, subj, tim, pay⟩ := ev
  cases pay <;> simp [write_binary] at h <;> simp [← h]

theorem write_structured_eq (serialize : Event → Except String (List Nat)) (ev : Event) :
    write_structured serialize ev =
      match serialize ev with
      | Except.ok j =>
          Except.ok { status := 200, headers := [],
                      contentType := some "application/cloudevents+json", body := j }
      | Except.error msg => Except.error (ErrorInternalServerError msg) := by
  cases hs : serialize ev <;>
    simp [write_structured, hs, Except.map, Except.mapError]

/-! ## Claims about the response assembler -/

/-- C1: a one-event batch resolves the effective encoding as the requested
one, defaulting to BINARY; STRUCTURED delegates to the structured encoder,
otherwise the binary encoder; any `Ok` response has status 200. -/
theorem write_cloud_event_single_dispatch (serialize : Event → Except String (List Nat))
    (ev : Event) (e : Option Encoding) :
    write_cloud_event serialize [ev] e =
      some (match e.getD Encoding.BINARY with
            | Encoding.STRUCTURED => write_structured serialize ev
            | Encoding.BINARY => write_binary ev)
    ∧ (∀ r, write_cloud_event serialize [ev] e = some (Except.ok r) → r.status = 200) := by
  constructor
  · cases e with
    | none => rfl
    | some enc => cases enc <;> rfl
  · intro r h
    have hb : ∀ hbin : write_binary ev = Except.ok r, r.status = 200 :=
      fun hbin => write_binary_status ev r hbin
    cases e with
    | none =>
        simp only [write_cloud_event, Option.getD, DEFAULT_ENCODING, Option.some.injEq] at h
        exact hb h
    | some enc =>
        cases enc with
        | BINARY =>
            simp only [write_cloud_event, Option.getD, Option.some.injEq] at h
            exact hb h
        | STRUCTURED =>
            simp only [write_cloud_event, Option.getD, Option.some.injEq] at h
            rw [write_structured_eq] at h
            cases hs : serialize ev <;> rw [hs] at h
            · simp at h
            · simp at h
              simp [← h]

/-- C1 witness: a concrete one-event batch with no requested encoding goes
to the binary encoder and the 200 status fact holds at its response. -/
theorem write_cloud_event_single_dispatch_witness :
    write_cloud_event serOk [ev0] none =
      some (match (none : Option Encoding).getD Encoding.BINARY with
            | Encoding.STRUCTURED => write_structured serOk ev0
            | Encoding.BINARY => write_binary ev0)
    ∧ HttpResponse.status
        { status := 200,
          headers := [(CE_ID_HEADER, "1"), (CE_SPECVERSION_HEADER, "1.0"),
                      (CE_SOURCE_HEADER, "/test"), (CE_TYPE_HEADER, "demo")],
          contentType := none, body := [] } = 200 :=
  ⟨(write_cloud_event_single_dispatch serOk ev0 none).1,
   (write_cloud_event_single_dispatch serOk ev0 none).2 _ rfl⟩

/-- C4: an empty batch yields status 202 with no body, whatever the
requested encoding. -/
theorem write_cloud_event_empty_batch (serialize : Event → Except String (List Nat))
    (e : Option Encoding) :
    write_cloud_event serialize [] e =
      some (Except.ok { status := 202, headers := [], contentType := none, body := [] }) :=
  rfl

/-- C5: a batch of two or more events hits `unimplemented!()` (modelled
`none`): no response, well-formed or otherwise, is ever produced. -/
theorem write_cloud_event_multi_panics (serialize : Event → Except String (List Nat))
    (ce : List Event) (e : Option Encoding) (h : 2 ≤ ce.length) :
    write_cloud_event serialize ce e = none := by
  match ce with
  | [] => simp at h
  | [x] => simp at h
  | x :: y :: rest => rfl

/-- C5 witness: a concrete two-event batch. -/
theorem write_cloud_event_multi_panics_witness :
    write_cloud_event serOk [ev0, ev1] none = none :=
  write_cloud_event_multi_panics serOk [ev0, ev1] none (by simp)

/-- C6: the binary encoder always succeeds with status 200, emits exactly
one header per present attribute under the six reserved names (the four
required ones always, subject and time only when present), takes the
content type and body from the payload when present, and leaves the body
empty otherwise. -/
theorem write_binary_encoding (ev : Event) :
    ∃ r, write_binary ev = Except.ok r
      ∧ r.status = 200
      ∧ r.headers =
          [(CE_ID_HEADER, ev.id), (CE_SPECVERSION_HEADER, ev.spec_version),
           (CE_SOURCE_HEADER, ev.source), (CE_TYPE_HEADER, ev.event_type)]
          ++ (match ev.subject with
              | some s => [(CE_SUBJECT_HEADER, s)]
              | none => [])
          ++ (match ev.time with
              | some t => [(CE_TIME_HEADER, t.to_rfc3339)]
              | none => [])
      ∧ r.contentType = Option.map Payload.content_type ev.payload
      ∧ r.body = (Option.map Payload.data ev.payload).getD [] := by
  obtain ⟨id, sv, src, et, subj, tim, pay⟩ := ev
  cases pay <;> cases subj <;> cases tim <;>
    exact ⟨_, rfl, rfl, rfl, rfl, rfl⟩

/-- C7: the structured encoder returns the serialized JSON with content
type `application/cloudevents+json` and status 200 when serialization
succeeds, and surfaces a serialization failure as a 500 internal server
error. -/
theorem write_structured_encoding (serialize : Event → Except String (List Nat))
    (ev : Event) :
    write_structured serialize ev =
      (match serialize ev with
       | Except.ok j =>
           Except.ok { status := 200, headers := [],
                       contentType := some "application/cloudevents+json", body := j }
       | Except.error msg => Except.error { status := 500, message := msg }) := by
  rw [write_structured_eq]
  cases serialize ev <;> rfl

/-- C9: `write_cloud_event` returns `Err` only when the batch is a single
event, the effective encoding is STRUCTURED, and serialization failed;
whenever the batch has at most one event and the effective encoding is not
STRUCTURED it returns `Ok`. -/
theorem write_cloud_event_err_only_structured (serialize : Event → Except String (List Nat))
    (ce : List Event) (e : Option Encoding) :
    (∀ err, write_cloud_event serialize ce e = some (Except.error err) →
        e.getD Encoding.BINARY = Encoding.STRUCTURED
          ∧ ∃ ev msg, ce = [ev] ∧ serialize ev = Except.error msg
              ∧ err = ErrorInternalServerError msg)
    ∧ (ce.length ≤ 1 → e.getD Encoding.BINARY ≠ Encoding.STRUCTURED →
        ∃ r, write_cloud_event serialize ce e = some (Except.ok r)) := by
  constructor
  · intro err h
    match ce with
    | [] => simp [write_cloud_event] at h
    | [ev] =>
        cases hd : e.getD Encoding.BINARY with
        | BINARY =>
            have : write_cloud_event serialize [ev] e = some (write_binary ev) := by
              simp [write_cloud_event, DEFAULT_ENCODING, hd]
            rw [this] at h
            obtain ⟨r, hr⟩ := write_binary_never_fails ev
            rw [hr] at h
            simp at h
        | STRUCTURED =>
            have : write_cloud_event serialize [ev] e = some (write_structured serialize ev) := by
              simp [write_cloud_event, DEFAULT_ENCODING, hd]
            rw [this] at h
            rw [write_structured_eq] at h
            cases hs : serialize ev <;> rw [hs] at h <;> simp at h
            exact ⟨rfl, ev, _, rfl, hs, h.symm⟩
    | x :: y :: rest => simp [write_cloud_event] at h
  · intro hlen henc
    match ce with
    | [] => exact ⟨_, rfl⟩
    | [ev] =>
        cases hd : e.getD Encoding.BINARY with
        | BINARY =>
            obtain ⟨r, hr⟩ := write_binary_never_fails ev
            refine ⟨r, ?_⟩
            simp [write_cloud_event, DEFAULT_ENCODING, hd, hr]
        | STRUCTURED => exact absurd hd henc
    | x :: y :: rest => simp at hlen

/-- C9 witness: a failing serializer under requested STRUCTURED produces
the internal error; a one-event BINARY batch produces `Ok`. -/
theorem write_cloud_event_err_only_structured_witness :
    ((some Encoding.STRUCTURED : Option Encoding).getD Encoding.BINARY = Encoding.STRUCTURED
      ∧ ∃ ev msg, ([ev0] : List Event) = [ev] ∧ serFail ev = Except.error msg
          ∧ ErrorInternalServerError "boom" = ErrorInternalServerError msg)
    ∧ ∃ r, write_cloud_event serOk [ev0] none = some (Except.ok r) :=
  ⟨(write_cloud_event_err_only_structured serFail [ev0] (some Encoding.STRUCTURED)).1
      (ErrorInternalServerError "boom") rfl,
   (write_cloud_event_err_only_structured serOk [ev0] none).2 (by simp) (by simp)⟩

/-! ## Helper lemmas about binding -/

theorem bindParams_replicate_required_exhausted (n : Nat) :
    ∀ (pos : Nat) (evs : List Event), evs.length < n →
      bindParams (List.replicate n ParamSpec.required) pos evs =
        Except.error (ErrorBadRequest
          ("Expecting event in position " ++ toString (evs.length + pos))) := by
  induction n with
  | zero => intro pos evs h; exact absurd h (Nat.not_lt_zero _)
  | succ m ih =>
      intro pos evs h
      rw [List.replicate_succ]
      match evs with
      | [] => simp [bindParams, vecPop]
      | a :: rest =>
          have hne : a :: rest ≠ [] := by simp
          obtain ⟨x, hx⟩ := Option.isSome_iff_exists.mp
            (List.getLast?_isSome.mpr hne)
          have hv : vecPop (a :: rest) = (some x, (a :: rest).dropLast) := by
            rw [vecPop_eq, hx]
          have hlen : (a :: rest).dropLast.length < m := by
            simp [List.length_dropLast] at h ⊢
            omega
          have harith : (a :: rest).dropLast.length + (pos + 1) =
              (a :: rest).length + pos := by
            simp [List.length_dropLast]
            omega
          simp only [bindParams, hv]
          rw [ih (pos + 1) (a :: rest).dropLast hlen, harith]
          rfl

theorem bindParams_all_optional_ok (n : Nat) :
    ∀ (pos : Nat) (evs : List Event), ∃ out,
      bindParams (List.replicate n ParamSpec.optional) pos evs = Except.ok out := by
  induction n with
  | zero => intro pos evs; exact ⟨([], evs), rfl⟩
  | succ m ih =>
      intro pos evs
      rw [List.replicate_succ]
      obtain ⟨out, hout⟩ := ih (pos + 1) (vecPop evs).2
      exact ⟨((vecPop evs).1 :: out.1, out.2), by simp [bindParams, hout, Except.map]⟩

/-! ## Claims about the generated binding code -/

/-- C2: the generated handler reverses the batch once and then pops from
the end per parameter, so a two-event batch binds the first event to the
first parameter and the second to the second; in the full handler the user
function is invoked on exactly those bindings. -/
theorem binding_preserves_order (e1 e2 : Event) (enc : Encoding) :
    bindParams [ParamSpec.required, ParamSpec.required] 1 (List.reverse [e1, e2]) =
        Except.ok ([some e1, some e2], [])
    ∧ ∀ (α : Type) (userFn : List (Option Event) → Except ActixError α)
        (normalize : α → List Event) (serialize : Event → Except String (List Nat)),
        handle_event [ParamSpec.required, ParamSpec.required] userFn normalize serialize
            (some (enc, [e1, e2])) =
          match userFn [some e1, some e2] with
          | Except.error err => some (Except.error err)
          | Except.ok output => write_cloud_event serialize (normalize output) (some enc) :=
  ⟨rfl, fun _ _ _ _ => rfl⟩

/-- C3: a `Event` parameter pops the next event and fails on an exhausted
batch with the 1-based position in the error, before the user function is
consulted; an `Option<Event>` parameter pops the next event if present and
binds `none` otherwise, introducing no error. -/
theorem required_optional_binding :
    (∀ (rest : List ParamSpec) (pos : Nat),
        bindParams (ParamSpec.required :: rest) pos [] =
          Except.error (ErrorBadRequest ("Expecting event in position " ++ toString pos)))
    ∧ (∀ (n : Nat) (evs : List Event), evs.length < n →
        bindParams (List.replicate n ParamSpec.required) 1 evs =
          Except.error (ErrorBadRequest
            ("Expecting event in position " ++ toString (evs.length + 1))))
    ∧ (∀ (rest : List ParamSpec) (pos : Nat) (evs : List Event),
        bindParams (ParamSpec.optional :: rest) pos evs =
          (bindParams rest (pos + 1) evs.dropLast).map
            (fun pr => (evs.getLast? :: pr.1, pr.2)))
    ∧ (∀ (n pos : Nat) (evs : List Event), ∃ out,
        bindParams (List.replicate n ParamSpec.optional) pos evs = Except.ok out)
    ∧ (∀ (specs : List ParamSpec) (err : ActixError) (enc : Encoding) (evs : List Event)
         (α : Type) (userFn : List (Option Event) → Except ActixError α)
         (normalize : α → List Event) (serialize : Event → Except String (List Nat)),
        bindParams specs 1 evs.reverse = Except.error err →
        handle_event specs userFn normalize serialize (some (enc, evs)) =
          some (Except.error err))
    ∧ (∀ ev : Event,
        bindParams [ParamSpec.required, ParamSpec.required] 1 (List.reverse [ev]) =
          Except.error (ErrorBadRequest "Expecting event in position 2")) := by
  refine ⟨fun rest pos => rfl, ?_, ?_, ?_, ?_, fun ev => rfl⟩
  · intro n evs h
    exact bindParams_replicate_required_exhausted n 1 evs h
  · intro rest pos evs
    simp only [bindParams, vecPop_eq]
  · intro n pos evs
    exact bindParams_all_optional_ok n pos evs
  · intro specs err enc evs α userFn normalize serialize h
    simp only [handle_event]
    rw [h]

/-- C3 witness: two required parameters against a one-event batch fail at
position 2; with one required parameter and an empty decoded batch the
handler short-circuits with the position-1 error, never invoking the user
function. -/
theorem required_optional_binding_witness :
    bindParams (List.replicate 2 ParamSpec.required) 1 [ev0] =
        Except.error (ErrorBadRequest
          ("Expecting event in position " ++ toString (List.length [ev0] + 1)))
    ∧ handle_event [ParamSpec.required] (fun _ => Except.ok ev0) normalize_single serOk
          (some (Encoding.BINARY, [])) =
        some (Except.error (ErrorBadRequest "Expecting event in position 1")) :=
  ⟨required_optional_binding.2.1 2 [ev0] (by simp),
   required_optional_binding.2.2.2.2.1 [ParamSpec.required]
     (ErrorBadRequest "Expecting event in position 1") Encoding.BINARY []
     Event (fun _ => Except.ok ev0) normalize_single serOk rfl⟩

/-! ## Claims about return normalization and build-time type recognition -/

/-- C8: a declared `Result<Event, E>` return is normalized to the
one-event batch, `Result<Option<Event>, E>` to a batch of zero or one
event that is empty exactly when the value is `None`, and
`Result<Vec<Event>, E>` to the unmodified sequence. -/
theorem map_output_normalization (errTy : RType) (e : Event) (o : Option Event)
    (l : List Event) :
    (map_output (some (genTy "Result" [simpleTy "Event", errTy])) =
          some OutputMapper.wrapSingle
      ∧ normalize_single e = [e])
    ∧ (map_output (some (genTy "Result" [genTy "Option" [simpleTy "Event"], errTy])) =
          some OutputMapper.fromIterOption
      ∧ normalize_optional o = o.toList
      ∧ (normalize_optional o = [] ↔ o = none)
      ∧ (normalize_optional o).length ≤ 1)
    ∧ (map_output (some (genTy "Result" [genTy "Vec" [simpleTy "Event"], errTy])) =
          some OutputMapper.passthrough
      ∧ normalize_sequence l = l) := by
  refine ⟨⟨rfl, rfl⟩, ⟨rfl, ?_, ?_, ?_⟩, rfl, rfl⟩ <;>
    cases o <;> simp [normalize_optional, option_into_iter]

/-! ## Helper lemma: shape forced by the single-segment path tests -/

theorem single_path_shape (name : String) (qself lead : Bool) (segs : List RSegment)
    (h : (!qself && path_is_single name (RPath.mk lead segs)) = true) :
    qself = false ∧ lead = false ∧ ∃ a, segs = [RSegment.mk name a] := by
  have h1 : (!qself) = true ∧ path_is_single name (RPath.mk lead segs) = true := by
    simpa [Bool.and_eq_true] using h
  obtain ⟨hq, hp⟩ := h1
  have h2 : (!lead) = true ∧ (segs.length == 1) = true ∧
      (match segs.head? with
       | some s => s.ident == name
       | none => false) = true := by
    simpa [path_is_single, RPath.leadingColon, RPath.segments,
      Bool.and_eq_true, and_assoc] using hp
  obtain ⟨hl, hlen, hhead⟩ := h2
  refine ⟨by simpa using hq, by simpa using hl, ?_⟩
  cases segs with
  | nil => simp at hlen
  | cons s rest =>
      cases rest with
      | cons t more => simp at hlen
      | nil =>
          cases s with
          | mk i a =>
              have hi : i = name := by
                simpa [RSegment.ident] using hhead
              exact ⟨a, by rw [hi]⟩

/-- C10: the `Option`, `Vec` and `Result` extractors succeed only on a
bare single-segment path of that name with no leading colons (so a
parameter of type `std::option::Option<Event>` is rejected at build
time), while `Event` itself is recognized by the last path segment alone,
whatever prefix precedes it — both as a bare parameter type and inside
`Option<...>`. -/
theorem syntactic_type_recognition :
    (∀ ty t, extract_type_from_option ty = some t →
        ∃ a, ty = RType.path false (RPath.mk false [RSegment.mk "Option" a]))
    ∧ (∀ ty t, extract_type_from_vec ty = some t →
        ∃ a, ty = RType.path false (RPath.mk false [RSegment.mk "Vec" a]))
    ∧ (∀ ty pr, extract_types_from_result ty = some pr →
        ∃ a, ty = RType.path false (RPath.mk false [RSegment.mk "Result" a]))
    ∧ parameter_spec (RFnArg.typed stdOptionEventTy) = none
    ∧ (∀ (q lead : Bool) (pre : List RSegment) (a : RPathArguments),
        is_event (RType.path q (RPath.mk lead (pre ++ [RSegment.mk "Event" a]))) = true)
    ∧ (∀ (pre : List RSegment) (aEv : RPathArguments),
        is_option_event (RType.path false (RPath.mk false [RSegment.mk "Option"
          (RPathArguments.angleBracketed [RGenericArg.type
            (RType.path false (RPath.mk false
              (pre ++ [RSegment.mk "Event" aEv])))])])) = true) := by
  refine ⟨?_, ?_, ?_, rfl, ?_, ?_⟩
  · intro ty t h
    cases ty with
    | other => simp [extract_type_from_option] at h
    | path qself p =>
        cases p with
        | mk lead segs =>
            by_cases hc : (!qself && path_is_single "Option" (RPath.mk lead segs)) = true
            · obtain ⟨hq, hl, a, hs⟩ := single_path_shape _ _ _ _ hc
              subst hq; subst hl; subst hs
              exact ⟨a, rfl⟩
            · simp [extract_type_from_option, hc] at h
  · intro ty t h
    cases ty with
    | other => simp [extract_type_from_vec] at h
    | path qself p =>
        cases p with
        | mk lead segs =>
            by_cases hc : (!qself && path_is_single "Vec" (RPath.mk lead segs)) = true
            · obtain ⟨hq, hl, a, hs⟩ := single_path_shape _ _ _ _ hc
              subst hq; subst hl; subst hs
              exact ⟨a, rfl⟩
            · simp [extract_type_from_vec, hc] at h
  · intro ty pr h
    cases ty with
    | other => simp [extract_types_from_result] at h
    | path qself p =>
        cases p with
        | mk lead segs =>
            by_cases hc : (!qself && path_is_single "Result" (RPath.mk lead segs)) = true
            · obtain ⟨hq, hl, a, hs⟩ := single_path_shape _ _ _ _ hc
              subst hq; subst hl; subst hs
              exact ⟨a, rfl⟩
            · simp [extract_types_from_result, hc] at h
  · intro q lead pre a
    simp [is_event, RPath.segments, List.getLast?_concat, RSegment.ident]
  · intro pre aEv
    simp [is_option_event, extract_type_from_option, path_is_single,
      RPath.leadingColon, RPath.segments, RSegment.ident, RSegment.args,
      List.getLast?_concat]

/-- C10 witness: `Option<Event>` has the forced single-segment shape, and
`std::option::Option<Event>` is rejected. -/
theorem syntactic_type_recognition_witness :
    (∃ a, genTy "Option" [simpleTy "Event"] =
        RType.path false (RPath.mk false [RSegment.mk "Option" a]))
    ∧ parameter_spec (RFnArg.typed stdOptionEventTy) = none :=
  ⟨syntactic_type_recognition.1 (genTy "Option" [simpleTy "Event"]) (simpleTy "Event") rfl,
   syntactic_type_recognition.2.2.2.1⟩

end FaasRust
